import Mathlib

/-!
Shallow embedding of the deep-research networking core of this repository:
the backoff transport and SSE reader of
`src/skills/deep-research/scripts/lib/http.py`, the error taxonomy of
`lib/errors.py`, and the job orchestrators of `lib/openai_dr.py` and
`lib/gemini_dr.py`.

Modelling conventions:
- Wall-clock quantities (seconds, delays, jitter draws) are rationals.
- `random.random()` draws are supplied as an explicit function `rand : Nat -> Rat`
  (one draw per attempt index), with `0 <= rand i < 1` assumed where needed.
- An HTTP exchange's outcome (success document, HTTP error status, network
  failure, JSON decode failure) is supplied by an environment ("world"), one
  outcome per attempt; the code under study is transcribed around it.
- `time.sleep` calls are recorded in a list; poll GETs and stream opens are
  counted, so that claims about "zero polls" or "sleeps exactly twice" are
  statements about the model's outputs.
- Loops whose exit depends on provider-supplied statuses are given fuel; the
  value `none` means the fuel ran out (the real loop would have kept going).
-/

namespace DeepResearch

/-! ## Constants from `lib/http.py` -/

def DEFAULT_TIMEOUT : ℚ := 60

def MAX_RETRIES : ℕ := 3

def RETRY_BASE_DELAY : ℚ := 2

def RETRY_429_BASE_DELAY : ℚ := 5

def RETRY_MAX_DELAY : ℚ := 60

/-- Error object mirroring `http.HTTPError(message, status_code, body, retry_after)`. -/
structure HErr where
  message : String
  status : Option ℤ
  body : Option String
  retryAfter : Option ℚ
  deriving DecidableEq, Repr

/-- Transcription of `_get_retry_delay(attempt, is_rate_limit, retry_after)`;
`r` is the value drawn by `random.random()`. -/
def getRetryDelay (attempt : ℕ) (isRateLimit : Bool) (retryAfter : Option ℚ)
    (r : ℚ) : ℚ :=
  match retryAfter with
  | some ra => min ra RETRY_MAX_DELAY
  | none =>
    let base := if isRateLimit then RETRY_429_BASE_DELAY else RETRY_BASE_DELAY
    let delay := base * 2 ^ attempt
    let delay := min delay RETRY_MAX_DELAY
    let jitter := delay * (1/4) * r
    delay + jitter

/-! ## The retry loop of `request` (`lib/http.py`, lines 107-162)

One `Outcome` per loop iteration describes what the `urllib.request.urlopen`
call (plus body decode) did on that attempt. -/

inductive Outcome (α : Type) where
  /-- `urlopen` succeeded and the body parsed as JSON: the function returns. -/
  | success (d : α)
  /-- `urllib.error.HTTPError` with a status code, error body, and optional
  parsed Retry-After header. -/
  | httpFail (s : ℤ) (b : Option String) (ra : Option ℚ)
  /-- `urllib.error.URLError` branch (message only, no status). -/
  | urlFail (m : String)
  /-- `json.JSONDecodeError` branch: non-retryable. -/
  | jsonFail (m : String)
  /-- `OSError / TimeoutError / ConnectionResetError` branch. -/
  | connFail (m : String)
  deriving DecidableEq, Repr

/-- Result of a `request` call: the returned document or raised error, the
sleeps performed (in order), and the number of attempts made. -/
structure RequestResult (α : Type) where
  result : Except HErr α
  sleeps : List ℚ
  attempts : ℕ
  deriving Repr

/-- The `for attempt in range(retries)` loop of `request`. The outcome list
holds one entry per remaining attempt, so `rest = []` exactly when
`attempt = retries - 1` (the `attempt < retries - 1` test in the source). -/
def requestGo {α : Type} (rand : ℕ → ℚ) :
    ℕ → List (Outcome α) → Option HErr → RequestResult α
  | _, [], lastErr =>
    ⟨.error (lastErr.getD ⟨"Request failed with no error details", none, none, none⟩),
      [], 0⟩
  | attempt, o :: rest, _ =>
    match o with
    | .success d => ⟨.ok d, [], 1⟩
    | .httpFail s b ra =>
      let e : HErr := ⟨"HTTP " ++ toString s, some s, b, ra⟩
      if 400 ≤ s ∧ s < 500 ∧ s ≠ 429 then ⟨.error e, [], 1⟩
      else
        let r := requestGo rand (attempt + 1) rest (some e)
        let ds := if rest.isEmpty then []
          else [getRetryDelay attempt (s = 429) ra (rand attempt)]
        ⟨r.result, ds ++ r.sleeps, r.attempts + 1⟩
    | .urlFail m =>
      let e : HErr := ⟨"URL Error: " ++ m, none, none, none⟩
      let r := requestGo rand (attempt + 1) rest (some e)
      let ds := if rest.isEmpty then [] else [getRetryDelay attempt false none (rand attempt)]
      ⟨r.result, ds ++ r.sleeps, r.attempts + 1⟩
    | .jsonFail m => ⟨.error ⟨"Invalid JSON response: " ++ m, none, none, none⟩, [], 1⟩
    | .connFail m =>
      let e : HErr := ⟨"Connection error: " ++ m, none, none, none⟩
      let r := requestGo rand (attempt + 1) rest (some e)
      let ds := if rest.isEmpty then [] else [getRetryDelay attempt false none (rand attempt)]
      ⟨r.result, ds ++ r.sleeps, r.attempts + 1⟩

/-- `request(method, url, ...)` with `retries` attempts, behaviour of attempt
`i` given by `outcomes i`. -/
def requestModel {α : Type} (rand : ℕ → ℚ) (retries : ℕ)
    (outcomes : ℕ → Outcome α) : RequestResult α :=
  requestGo rand 0 ((List.range retries).map outcomes) none

/-! ## The initial-connect retry loop of `stream_sse` (`lib/http.py`, lines 269-314)

The source duplicates the retry policy of `request` for the initial SSE
connect: 4xx other than 429 fail fast, 429 and network errors retry with the
same backoff, and after exhaustion the last error is raised. -/

inductive ConnOutcome where
  /-- `urlopen` succeeded: the connect loop breaks. -/
  | ok
  /-- `urllib.error.HTTPError` on connect. -/
  | httpFail (s : ℤ) (b : Option String) (ra : Option ℚ)
  /-- `URLError / OSError / TimeoutError / ConnectionResetError` on connect. -/
  | connFail (m : String)
  deriving DecidableEq, Repr

/-- The `for attempt in range(MAX_RETRIES)` connect loop of `stream_sse`. -/
def sseConnectGo (rand : ℕ → ℚ) :
    ℕ → List ConnOutcome → Option HErr → RequestResult Unit
  | _, [], lastErr =>
    ⟨.error (lastErr.getD ⟨"SSE connection failed with no error details", none, none, none⟩),
      [], 0⟩
  | attempt, o :: rest, _ =>
    match o with
    | .ok => ⟨.ok (), [], 1⟩
    | .httpFail s b ra =>
      let e : HErr := ⟨"HTTP " ++ toString s, some s, b, ra⟩
      if 400 ≤ s ∧ s < 500 ∧ s ≠ 429 then ⟨.error e, [], 1⟩
      else
        let r := sseConnectGo rand (attempt + 1) rest (some e)
        let ds := if rest.isEmpty then []
          else [getRetryDelay attempt (s = 429) ra (rand attempt)]
        ⟨r.result, ds ++ r.sleeps, r.attempts + 1⟩
    | .connFail m =>
      let e : HErr := ⟨"Connection error: " ++ m, none, none, none⟩
      let r := sseConnectGo rand (attempt + 1) rest (some e)
      let ds := if rest.isEmpty then [] else [getRetryDelay attempt false none (rand attempt)]
      ⟨r.result, ds ++ r.sleeps, r.attempts + 1⟩

/-- The connect phase of `stream_sse`, attempt `i` behaving as `outs i`. -/
def sseConnectModel (rand : ℕ → ℚ) (outs : ℕ → ConnOutcome) : RequestResult Unit :=
  sseConnectGo rand 0 ((List.range MAX_RETRIES).map outs) none

/-! ## The SSE line parser `_parse_sse_lines` (`lib/http.py`, lines 175-233) -/

/-- One parsed SSE event: the dict with keys `event`, `data`, `id`. -/
structure SSEvent where
  event : String
  data : String
  id : String
  deriving DecidableEq, Repr

/-- Python `line.rstrip(CHRS)` for the character set containing CR and LF. -/
def stripNl (s : String) : String :=
  String.mk ((s.toList.reverse.dropWhile (fun c => c == '\r' || c == '\n')).reverse)

/-- Python `s.startswith(c)` for a one-character needle, over the character
list of `s`. -/
def startsWithChar (c : Char) : List Char → Bool
  | [] => false
  | a :: _ => a == c

/-- The empty `current_event` dict. -/
def emptySSEvent : SSEvent := ⟨"", "", ""⟩

/-- Python truthiness test of the flush step:
`current_event["event"] or current_event["data"] or current_event["id"]`. -/
def hasContent (e : SSEvent) : Prop :=
  e.event ≠ "" ∨ e.data ≠ "" ∨ e.id ≠ ""

instance (e : SSEvent) : Decidable (hasContent e) := by
  unfold hasContent; infer_instance

/-- The line loop of `_parse_sse_lines`, carrying `current_event` and
`data_parts`; the `[]` case is the final flush after the loop. The
`field, _, value = line.partition(':')` step is the split at the first
colon, and the single leading space of `value` is stripped if present. -/
def parseGo : List String → SSEvent → List String → List SSEvent
  | [], cur, dataParts =>
    let cur := if dataParts ≠ [] then
        { cur with data := String.intercalate "\n" dataParts } else cur
    if hasContent cur then [cur] else []
  | l :: rest, cur, dataParts =>
    let line := (stripNl l).toList
    if startsWithChar ':' line then parseGo rest cur dataParts
    else if line = [] then
      let cur2 := if dataParts ≠ [] then
          { cur with data := String.intercalate "\n" dataParts } else cur
      if hasContent cur2 then cur2 :: parseGo rest emptySSEvent []
      else parseGo rest cur2 []
    else if line.contains ':' then
      let field := String.mk (line.takeWhile (fun c => c != ':'))
      let valueChars := (line.dropWhile (fun c => c != ':')).tail
      let value := String.mk
        (if startsWithChar ' ' valueChars then valueChars.tail else valueChars)
      if field = "event" then parseGo rest { cur with event := value } dataParts
      else if field = "data" then parseGo rest cur (dataParts ++ [value])
      else if field = "id" then parseGo rest { cur with id := value } dataParts
      else parseGo rest cur dataParts
    else parseGo rest cur dataParts

/-- `_parse_sse_lines(lines)`. -/
def parseSSELines (lines : List String) : List SSEvent :=
  parseGo lines emptySSEvent []

/-! ## Error taxonomy (`lib/errors.py`) -/

/-- Errors raised by the provider clients: `http.HTTPError`,
`ProviderTimeoutError` and `ProviderAPIError` (`ProviderRateLimitError` is
defined in the source but never raised by the code under study). -/
inductive Err where
  | http (h : HErr)
  | provTimeout (provider : String) (timeout : ℚ) (elapsed : ℚ)
  | provAPI (provider : String) (status : ℤ) (body : String) (elapsed : ℚ)
  deriving DecidableEq, Repr

/-- Whether an error is of the Timeout class (`ProviderTimeoutError`). -/
def isTimeoutClass : Err → Bool
  | .provTimeout _ _ _ => true
  | _ => false

/-- The `str(e)` of a provider error per `ProviderError.__init__` and its
subclasses (used when `_stream_response` wraps a non-HTTPError). -/
def provErrStr : Err → String
  | .http h => h.message
  | .provTimeout p t _ => "[" ++ p ++ "] timed out after " ++ toString t ++ "s"
  | .provAPI p s b _ => "[" ++ p ++ "] HTTP " ++ toString s ++ ": " ++ b.take 200

/-- Python class name of the exception, for the wrap message. -/
def errTypeName : Err → String
  | .http _ => "HTTPError"
  | .provTimeout _ _ _ => "ProviderTimeoutError"
  | .provAPI _ _ _ _ => "ProviderAPIError"

/-- The `try/except` around the event loop of `_stream_response`
(`lib/gemini_dr.py`, lines 240-245): an `http.HTTPError` is re-raised as-is,
while any other exception (including the `ProviderTimeoutError` and
`ProviderAPIError` raised inside the loop) is wrapped into an
`http.HTTPError` with no status code. -/
def wrapNonHttp (e : Err) : Err :=
  match e with
  | .http h => .http h
  | _ => .http ⟨"SSE stream error: " ++ errTypeName e ++ ": " ++ provErrStr e,
      none, none, none⟩

/-! ## Provider response documents

The providers return JSON dicts accessed with `.get` and fallbacks; optional
fields are `Option`, and fields whose runtime type is tested with
`isinstance` get a small inductive of the possible shapes. -/

/-- The `error` field of a status document: absent, a dict with an optional
`message` key, or a non-dict value (rendered with `str`). -/
inductive ErrField where
  | absent
  | dict (message : Option String)
  | nonDict (s : String)
  deriving DecidableEq, Repr

/-- `error.get("message", "Unknown error") if isinstance(error, dict) else str(error)`
with `error = resp.get("error", {})`. -/
def errMsgOf : ErrField → String
  | .absent => "Unknown error"
  | .dict m => m.getD "Unknown error"
  | .nonDict s => s

/-- A citation entry: url plus optional title. -/
structure Citation where
  url : String
  title : Option String
  deriving DecidableEq, Repr

/-! ### Gemini documents and `_extract_report` (`lib/gemini_dr.py`, lines 251-299) -/

/-- One element of the `outputs` list: a dict (with optional `text` and
`content` keys), a plain string, or some other value. -/
inductive OutItem where
  | dict (text : Option String) (content : Option String)
  | str (s : String)
  | other
  deriving DecidableEq, Repr

/-- The `result` field: absent (defaulted to `{}`), a dict, or a non-dict. -/
inductive ResField where
  | absent
  | dict (text : Option String) (content : Option String)
  | nonDict
  deriving DecidableEq, Repr

/-- One element of the `sources` list: a string, a dict, or something else. -/
inductive SrcItem where
  | str (s : String)
  | dict (url : Option String) (uri : Option String) (title : Option String)
  | other
  deriving DecidableEq, Repr

/-- A `sources`-like field value: a list or a non-list. -/
inductive SrcVal where
  | list (items : List SrcItem)
  | nonList
  deriving DecidableEq, Repr

/-- A Gemini interaction document, with the fields read by
`research`, `_poll_response_fallback` and `_extract_report`. -/
structure GDoc where
  name : Option String
  id : Option String
  interactionId : Option String
  status : Option String
  /-- `metadata.status`, when `metadata` is present with a `status` key. -/
  metadataStatus : Option String
  error : ErrField
  outputs : List OutItem
  result : ResField
  sources : Option SrcVal
  /-- `groundingMetadata.webSearchQueries` (the inner default of the
  `sources` lookup). -/
  groundingWSQ : Option SrcVal
  deriving Repr

/-- `resp.get("status", resp.get("metadata", {}).get("status", ""))`. -/
def effStatusG (d : GDoc) : String :=
  d.status.getD (d.metadataStatus.getD "")

/-- Characters ending a bare URL in the regex `[^\s\)>\]]+` of
`_extract_report` (ASCII whitespace modelled). -/
def urlTermChar (c : Char) : Bool :=
  c == ' ' || c == '\t' || c == '\n' || c == '\r' ||
  c == '\x0b' || c == '\x0c' || c == ')' || c == '>' || c == ']'

/-- Scanner equivalent to `re.findall(PAT, report)` for the bare-URL pattern:
outside a match, a position starting with an URL scheme opens a token; inside
a token, characters accumulate until a terminator; matches do not overlap. -/
def urlScan : List Char → Bool → List Char → List String
  | [], inUrl, acc => if inUrl && !acc.isEmpty then [String.mk acc.reverse] else []
  | c :: rest, true, acc =>
    if urlTermChar c then String.mk acc.reverse :: urlScan rest false []
    else urlScan rest true (c :: acc)
  | c :: rest, false, _ =>
    if ("http://".toList.isPrefixOf (c :: rest)) ||
       ("https://".toList.isPrefixOf (c :: rest)) then
      urlScan rest true [c]
    else urlScan rest false []

/-- `re.findall` of the bare-URL pattern over the report text. -/
def findUrls (report : String) : List String :=
  urlScan report.toList false []

/-- First-occurrence-preserving dedup (the `seen` set loop). -/
def dedupeUrls (xs : List String) : List String :=
  xs.foldl (fun acc u => if u ∈ acc then acc else acc ++ [u]) []

/-- The report-text part of `_extract_report`: last element of `outputs`,
falling back to the `result` dict. -/
def gDocReport (d : GDoc) : String :=
  let report :=
    match d.outputs.getLast? with
    | some (.dict text content) => text.getD (content.getD "")
    | some (.str s) => s
    | some .other => ""
    | none => ""
  if report = "" then
    match d.result with
    | .dict text content => text.getD (content.getD "")
    | .absent => ""
    | .nonDict => ""
  else report

/-- The citation part of `_extract_report`: structured `sources` first, then
the bare-URL fallback over a non-empty report. -/
def gDocCitations (d : GDoc) (report : String) : List Citation :=
  let srcVal := d.sources.getD (d.groundingWSQ.getD (.list []))
  let citations :=
    match srcVal with
    | .list items =>
      items.foldl (fun acc src =>
        match src with
        | .str s => acc ++ [⟨s, none⟩]
        | .dict url uri title => acc ++ [⟨url.getD (uri.getD ""), some (title.getD "")⟩]
        | .other => acc) []
    | .nonList => []
  if citations = [] ∧ report ≠ "" then
    (dedupeUrls (findUrls report)).map (fun u => ⟨u, none⟩)
  else citations

/-- `_extract_report(response)` for Gemini. -/
def extractReportG (d : GDoc) : String × List Citation :=
  let report := gDocReport d
  (report, gDocCitations d report)

/-! ### OpenAI documents and `_extract_report` (`lib/openai_dr.py`, lines 126-150) -/

/-- An annotation dict on an `output_text` block. -/
structure OAAnn where
  ty : Option String
  url : Option String
  title : Option String
  deriving DecidableEq, Repr

/-- A content block of a message item. -/
structure OABlock where
  ty : Option String
  text : Option String
  anns : List OAAnn
  deriving DecidableEq, Repr

/-- An element of the `output` list. -/
structure OAItem where
  ty : Option String
  content : List OABlock
  deriving DecidableEq, Repr

/-- An OpenAI response document with the fields read by `research` and
`_poll_response`. -/
structure OAIDoc where
  id : Option String
  status : Option String
  error : ErrField
  output : List OAItem
  deriving Repr

/-- `_extract_report(response)` for OpenAI: the report is overwritten by each
`output_text` block (last one wins); `url_citation` annotations accumulate
across all blocks. -/
def extractReportO (d : OAIDoc) : String × List Citation :=
  d.output.foldl (fun st item =>
    if item.ty = some "message" then
      item.content.foldl (fun st block =>
        if block.ty = some "output_text" then
          let report := block.text.getD ""
          let cites := block.anns.foldl (fun cs ann =>
            if ann.ty = some "url_citation" then
              cs ++ [⟨ann.url.getD "", some (ann.title.getD "")⟩]
            else cs) st.2
          (report, cites)
        else st) st
    else st) ("", [])

/-! ## Constants of the orchestrators -/

/-- `openai_dr.MAX_POLL_SECONDS` (30 minute hard ceiling). -/
def MAX_POLL_SECONDS : ℚ := 1800

/-- `gemini_dr.MAX_TIMEOUT_SECONDS` (30 minutes total timeout). -/
def MAX_TIMEOUT_SECONDS : ℚ := 1800

/-- `gemini_dr.ZOMBIE_THRESHOLD` (5 minutes without events = stuck). -/
def ZOMBIE_THRESHOLD : ℚ := 300

/-- `gemini_dr.AGENT`. -/
def AGENT : String := "deep-research-pro-preview-12-2025"

/-- `openai_dr.PRIMARY_MODEL` (the submit-phase 404 fallback to
`FALLBACK_MODEL` happens above the slice modelled here, so the orchestrator
model takes the post-submit model name as a parameter). -/
def PRIMARY_MODEL : String := "o3-deep-research-2025-06-26"

/-- `_get_poll_interval` of `lib/openai_dr.py` (returns Python ints). -/
def oaiPollInterval (elapsed : ℚ) : ℕ :=
  if elapsed < 120 then 5
  else if elapsed < 600 then 15
  else 30

/-- `_get_poll_interval` of `lib/gemini_dr.py` (returns Python floats). -/
def gemPollInterval (elapsed : ℚ) : ℚ :=
  if elapsed < 120 then 5
  else if elapsed < 600 then 15
  else 30

/-! ## The polling loops

The `while True` loops of `_poll_response` (`lib/openai_dr.py`, lines 71-123)
and `_poll_response_fallback` (`lib/gemini_dr.py`, lines 74-120).

`poll k` is the document returned by the k-th GET; `delta k >= 0` is the wall
clock consumed by that GET and loop overhead, so the elapsed time at the next
iteration's ceiling check is `elapsed + interval + delta k` after a sleep.
Fuel bounds the iterations; `none` means the fuel ran out. The result also
carries the number of GETs issued. -/

/-- `_poll_response(api_key, response_id)` for OpenAI. The source's
known-non-terminal branch (`queued/in_progress/searching`) and its
unknown-status branch differ only in the stderr text and both sleep the same
adaptive interval, so they are one branch here. -/
def pollO (poll : ℕ → OAIDoc) (delta : ℕ → ℚ) :
    ℕ → ℕ → ℚ → Option (Except Err OAIDoc × ℕ)
  | 0, _, _ => none
  | fuel + 1, k, elapsed =>
    if MAX_POLL_SECONDS ≤ elapsed then
      some (.error (.provTimeout "openai" MAX_POLL_SECONDS elapsed), k)
    else
      let resp := poll k
      let status := resp.status.getD ""
      if status = "completed" then some (.ok resp, k + 1)
      else if status = "failed" then
        some (.error (.provAPI "openai" 0 (errMsgOf resp.error) elapsed), k + 1)
      else if status = "incomplete" then
        some (.error (.provAPI "openai" 0 "returned incomplete (may have hit output limit)" elapsed), k + 1)
      else if status = "cancelled" then
        some (.error (.provAPI "openai" 0 "was cancelled" elapsed), k + 1)
      else pollO poll delta fuel (k + 1) (elapsed + (oaiPollInterval elapsed : ℚ) + delta k)

/-- `_poll_response_fallback(api_key, interaction_id)` for Gemini. -/
def pollG (poll : ℕ → GDoc) (delta : ℕ → ℚ) :
    ℕ → ℕ → ℚ → Option (Except Err GDoc × ℕ)
  | 0, _, _ => none
  | fuel + 1, k, elapsed =>
    if MAX_TIMEOUT_SECONDS ≤ elapsed then
      some (.error (.provTimeout "gemini" MAX_TIMEOUT_SECONDS elapsed), k)
    else
      let resp := poll k
      let status := effStatusG resp
      if status = "completed" ∨ status = "COMPLETED" then some (.ok resp, k + 1)
      else if status = "failed" ∨ status = "FAILED" then
        some (.error (.provAPI "gemini" 0 (errMsgOf resp.error) elapsed), k + 1)
      else if status = "cancelled" ∨ status = "CANCELLED" then
        some (.error (.provAPI "gemini" 0 "was cancelled" elapsed), k + 1)
      else pollG poll delta fuel (k + 1) (elapsed + gemPollInterval elapsed + delta k)

/-! ## The Gemini streaming loop `_stream_response` (`lib/gemini_dr.py`, lines 144-248)

The events yielded by `http.stream_sse` are modelled already JSON-decoded:
`GData.invalid` is a non-empty `data` string that `json.loads` rejects (the
loop logs and `continue`s); `GData.obj` carries the `.get` results for the
`type`, `text` and `message` keys (an event with an empty `data` string
behaves as `obj "" "" none`, matching `data = {}`). -/

inductive GData where
  | invalid
  | obj (ctype : String) (text : String) (message : Option String)
  deriving DecidableEq, Repr

/-- One yielded SSE event with its timing: `t` is the wall-clock elapsed time
(since `start_time`) when the event arrives, so `elapsed = t` in the loop
body; `eps >= 0` is the time the loop body itself takes, so the in-loop
silence check at the bottom of the body sees `silence_duration = eps`. -/
structure TimedGEvent where
  t : ℚ
  ty : String
  data : GData
  eps : ℚ
  deriving DecidableEq, Repr

/-- How the generator ends after its last yielded event: a clean EOF (the
loop falls through to the final `raise`) or a read failure at `tEnd` — a
socket timeout or connection error that `stream_sse` re-raises as
`HTTPError` with no status code. -/
inductive GEnding where
  | clean (tEnd : ℚ)
  | readFail (tEnd : ℚ)
  deriving DecidableEq, Repr

/-- The `for event in http.stream_sse(...)` loop of `_stream_response`,
carrying `report_parts`; returns the result, the elapsed time at which the
call returns or raises, and the number of events consumed. -/
def streamLoopGo : List TimedGEvent → GEnding → List String → ℕ →
    Except Err String × ℚ × ℕ
  | [], ending, _, n =>
    match ending with
    | .clean tE =>
      (.error (.http ⟨"SSE stream ended without interaction.complete event",
        none, none, none⟩), tE, n)
    | .readFail tE =>
      (.error (.http ⟨"SSE stream error: TimeoutError: timed out", none, none, none⟩),
        tE, n)
  | e :: rest, ending, parts, n =>
    if MAX_TIMEOUT_SECONDS ≤ e.t then
      (.error (wrapNonHttp (.provTimeout "gemini" MAX_TIMEOUT_SECONDS e.t)), e.t, n + 1)
    else
      match e.data with
      | .invalid => streamLoopGo rest ending parts (n + 1)
      | .obj ctype text msg =>
        if e.ty = "interaction.start" then
          if ZOMBIE_THRESHOLD < e.eps then
            (.error (wrapNonHttp (.provTimeout "gemini" ZOMBIE_THRESHOLD (e.t + e.eps))),
              e.t + e.eps, n + 1)
          else streamLoopGo rest ending parts (n + 1)
        else if e.ty = "content.delta" then
          let parts2 :=
            if ctype = "thought_summary" then parts
            else if ctype = "text" ∧ text ≠ "" then parts ++ [text]
            else parts
          if ZOMBIE_THRESHOLD < e.eps then
            (.error (wrapNonHttp (.provTimeout "gemini" ZOMBIE_THRESHOLD (e.t + e.eps))),
              e.t + e.eps, n + 1)
          else streamLoopGo rest ending parts2 (n + 1)
        else if e.ty = "interaction.complete" ∨ e.ty = "interaction.completed" then
          (.ok (String.join parts), e.t, n + 1)
        else if e.ty = "error" then
          (.error (wrapNonHttp (.provAPI "gemini" 0 (msg.getD "Unknown error") e.t)),
            e.t, n + 1)
        else
          if ZOMBIE_THRESHOLD < e.eps then
            (.error (wrapNonHttp (.provTimeout "gemini" ZOMBIE_THRESHOLD (e.t + e.eps))),
              e.t + e.eps, n + 1)
          else streamLoopGo rest ending parts (n + 1)

/-- The streaming environment seen by one `_stream_response` call: an
optional connect-phase failure (raised by `stream_sse` before any event, with
a status for HTTP rejections), then the yielded events and the ending. -/
structure GStreamWorld where
  connectErr : Option HErr
  events : List TimedGEvent
  ending : GEnding

/-- `_stream_response(api_key, interaction_id)`. -/
def streamResponse (w : GStreamWorld) : Except Err String × ℚ × ℕ :=
  match w.connectErr with
  | some h => (.error (.http h), 0, 0)
  | none => streamLoopGo w.events w.ending [] 0

/-- The per-read socket timeout of the streaming phase: the call site is
`http.stream_sse(url, headers=headers, timeout=MAX_TIMEOUT_SECONDS)`
(`lib/gemini_dr.py`, line 178), and `stream_sse` passes `timeout` to
`urlopen`, where it bounds each blocking `readline`. -/
def sseCallReadTimeout : ℚ := MAX_TIMEOUT_SECONDS

/-- A stream that yields the given events and then goes silent without
closing: the next `readline` blocks until the socket timeout fires, so the
read failure surfaces at `lastT + sseCallReadTimeout`. -/
def silentStreamWorld (events : List TimedGEvent) (lastT : ℚ) : GStreamWorld :=
  ⟨none, events, .readFail (lastT + sseCallReadTimeout)⟩

/-! ## The Gemini orchestrator `research` (`lib/gemini_dr.py`, lines 302-367)

Modelled from the point where `_submit_request` has returned its response
document (submission transport failures propagate out of `research` before
any of the code the claims are about runs). -/

/-- The environment of one Gemini `research` call. -/
structure GWorld where
  /-- The document returned by `_submit_request`. -/
  submit : GDoc
  /-- The streaming environment, used if the streaming phase runs. -/
  stream : GStreamWorld
  /-- The outcome of the post-stream citation GET (`except Exception` makes
  every failure equivalent). -/
  citeFetch : Except Unit GDoc
  /-- Poll documents for `_poll_response_fallback`. -/
  poll : ℕ → GDoc
  /-- Per-poll-iteration extra wall time. -/
  delta : ℕ → ℚ

/-- How many poll GETs and stream opens a `research` call performed. -/
structure GCounters where
  polls : ℕ
  streamOpens : ℕ
  deriving DecidableEq, Repr

/-- `resp.get("name", resp.get("id", resp.get("interactionId", "")))`. -/
def extractIdG (d : GDoc) : String :=
  d.name.getD (d.id.getD (d.interactionId.getD ""))

/-- The stream-to-poll fallback test of `research` (line 338):
`e.status_code is None or e.status_code >= 500`. -/
def fallbackCond (st : Option ℤ) : Bool :=
  match st with
  | none => true
  | some s => 500 ≤ s

/-- The polling-fallback tail of `research` (lines 364-367): run
`_poll_response_fallback`, then `_extract_report` on its document. -/
def pollPhaseG (fuel : ℕ) (w : GWorld) :
    Option (Except Err (String × List Citation × String) × GCounters) :=
  match pollG w.poll w.delta fuel 0 0 with
  | none => none
  | some (.ok doc, n) =>
    let rc := extractReportG doc
    some (.ok (rc.1, rc.2, AGENT), ⟨n, 1⟩)
  | some (.error e, n) => some (.error e, ⟨n, 1⟩)

/-- `research(api_key, topic)` for Gemini, from the submission response on.
Returns `(report, citations, model)` or the raised error, plus counters. -/
def researchG (fuel : ℕ) (w : GWorld) :
    Option (Except Err (String × List Citation × String) × GCounters) :=
  let resp := w.submit
  let iid := extractIdG resp
  if iid = "" then
    some (.error (.provAPI "gemini" 0 "No interaction ID returned" 0), ⟨0, 0⟩)
  else
    let status := effStatusG resp
    if status = "completed" ∨ status = "COMPLETED" then
      let rc := extractReportG resp
      some (.ok (rc.1, rc.2, AGENT), ⟨0, 0⟩)
    else
      match streamResponse w.stream with
      | (.ok report, _, _) =>
        if report ≠ "" then
          match w.citeFetch with
          | .ok doc => some (.ok (report, (extractReportG doc).2, AGENT), ⟨0, 1⟩)
          | .error _ => some (.ok (report, [], AGENT), ⟨0, 1⟩)
        else pollPhaseG fuel w
      | (.error (.http h), _, _) =>
        if fallbackCond h.status then pollPhaseG fuel w
        else some (.error (.http h), ⟨0, 1⟩)
      | (.error e, _, _) => some (.error e, ⟨0, 1⟩)

/-! ## The OpenAI orchestrator `research` (`lib/openai_dr.py`, lines 153-193)

Modelled from the submission response on; `model` is the value of the
source's `model` variable after the submit phase (primary, or fallback after
a 404). -/

/-- The environment of one OpenAI `research` call. -/
structure OWorld where
  submit : OAIDoc
  poll : ℕ → OAIDoc
  delta : ℕ → ℚ

/-- Truthiness of `response_id = resp.get("id")`. -/
def idOkO (d : OAIDoc) : Bool :=
  match d.id with
  | none => false
  | some s => s != ""

/-- The polling tail of OpenAI `research` (lines 191-193). -/
def pollPhaseO (fuel : ℕ) (model : String) (w : OWorld) :
    Option (Except Err (String × List Citation × String) × ℕ) :=
  match pollO w.poll w.delta fuel 0 0 with
  | none => none
  | some (.ok doc, n) =>
    let rc := extractReportO doc
    some (.ok (rc.1, rc.2, model), n)
  | some (.error e, n) => some (.error e, n)

/-- `research(api_key, topic)` for OpenAI, from the submission response on.
The second component counts poll GETs (OpenAI has no streaming path). -/
def researchO (fuel : ℕ) (model : String) (w : OWorld) :
    Option (Except Err (String × List Citation × String) × ℕ) :=
  let resp := w.submit
  if ¬ idOkO resp then
    some (.error (.provAPI "openai" 0 "No response ID returned" 0), 0)
  else if resp.status.getD "" = "completed" then
    let rc := extractReportO resp
    some (.ok (rc.1, rc.2, model), 0)
  else pollPhaseO fuel model w

/-! ## Derived small definitions used by the statements -/

/-- The `base` local of `_get_retry_delay`. -/
def baseDelay (isRateLimit : Bool) : ℚ :=
  if isRateLimit then RETRY_429_BASE_DELAY else RETRY_BASE_DELAY

/-- Whether a stream-call result is a raised Timeout-class error. -/
def resultErrIsTimeout (r : Except Err String) : Bool :=
  match r with
  | .error e => isTimeoutClass e
  | .ok _ => false

/-- The outcome sequence 429, 429, 200 for the transport. -/
def seq429_429_200 {α : Type} (d : α) (b1 b2 : Option String) : ℕ → Outcome α :=
  fun n =>
    match n with
    | 0 => .httpFail 429 b1 none
    | 1 => .httpFail 429 b2 none
    | _ => .success d

/-! ## Concrete inputs for witnesses and counterexamples -/

/-- First pre-stall event: a content delta at elapsed 10s. -/
def c1Event1 : TimedGEvent := ⟨10, "content.delta", .obj "text" "hello" none, 0⟩

/-- Second pre-stall event: a content delta at elapsed 20s. -/
def c1Event2 : TimedGEvent := ⟨20, "content.delta", .obj "text" "world" none, 0⟩

/-- A stream that yields two events and then stalls silently. -/
def c1World : GStreamWorld := silentStreamWorld [c1Event1, c1Event2] 20

/-- A stream whose only event arrives exactly at the 1800s ceiling. -/
def c2World : GStreamWorld := ⟨none, [⟨1800, "interaction.start", .obj "" "" none, 0⟩], .clean 1801⟩

/-- A status document with no usable fields (never-terminal status). -/
def gdEmpty : GDoc := ⟨none, none, none, none, none, .absent, [], .absent, none, none⟩

/-- A submission response: id present, job still running. -/
def gdSubmitted : GDoc :=
  ⟨some "interactions/abc", none, none, some "in_progress", none, .absent, [], .absent, none, none⟩

/-- A completed document with a report and one structured source. -/
def gdCompleted : GDoc :=
  ⟨some "interactions/abc", none, none, some "completed", none, .absent,
    [.dict (some "Report text") none], .absent, some (.list [.str "https://example.com"]), none⟩

/-- A streaming connect rejected with HTTP 503 (retries exhausted). -/
def c3Stream5xx : GStreamWorld := ⟨some ⟨"HTTP 503", some 503, some "oops", none⟩, [], .clean 0⟩

/-- A streaming connect rejected with HTTP 404 (fail-fast). -/
def c3Stream4xx : GStreamWorld := ⟨some ⟨"HTTP 404", some 404, some "nf", none⟩, [], .clean 0⟩

/-- Gemini world: streaming dies with a 5xx, polling then completes. -/
def c3World5xx : GWorld := ⟨gdSubmitted, c3Stream5xx, .error (), fun _ => gdCompleted, fun _ => 0⟩

/-- Gemini world: streaming dies with a 404. -/
def c3World4xx : GWorld := ⟨gdSubmitted, c3Stream4xx, .error (), fun _ => gdCompleted, fun _ => 0⟩

/-- A submission response that already reports `completed`. -/
def gdDone : GDoc :=
  ⟨some "interactions/xyz", none, none, some "completed", none, .absent,
    [.dict (some "Final report") none], .absent,
    some (.list [.dict (some "https://a.example") none (some "A")]), none⟩

/-- Gemini world whose submission response is already completed. -/
def c9WorldG : GWorld := ⟨gdDone, ⟨none, [], .clean 0⟩, .error (), fun _ => gdDone, fun _ => 0⟩

/-- An OpenAI response document that is already completed, with one
`output_text` block and one `url_citation` annotation. -/
def oaDone : OAIDoc :=
  ⟨some "resp_1", some "completed", .absent,
    [⟨some "message", [⟨some "output_text", some "OA report",
      [⟨some "url_citation", some "https://b.example", some "B"⟩]⟩]⟩]⟩

/-- OpenAI world whose submission response is already completed. -/
def c9WorldO : OWorld := ⟨oaDone, fun _ => oaDone, fun _ => 0⟩

/-- An OpenAI document with a never-terminal status. -/
def oaEmpty : OAIDoc := ⟨some "resp_1", some "in_progress", .absent, []⟩

/-- A stream that completes successfully having accumulated no report text. -/
def c10Stream : GStreamWorld :=
  ⟨none, [⟨5, "interaction.complete", .obj "" "" none, 0⟩], .clean 6⟩

/-- Gemini world: stream succeeds with an empty report, polling completes. -/
def c10World : GWorld := ⟨gdSubmitted, c10Stream, .error (), fun _ => gdCompleted, fun _ => 0⟩

/-! ## Helper lemmas -/

theorem gemPollInterval_ge_five (e : ℚ) : 5 ≤ gemPollInterval e := by
  unfold gemPollInterval
  split
  · norm_num
  · split <;> norm_num

theorem oaiPollInterval_ge_five (e : ℚ) : 5 ≤ (oaiPollInterval e : ℚ) := by
  unfold oaiPollInterval
  split
  · norm_num
  · split <;> norm_num

/-! ## Claim theorems -/

/-- C7: the adaptive poll interval function returns exactly 5 at elapsed
0, 60 and 119 seconds, exactly 15 at 120, 300 and 599 seconds, and exactly 30
at 600, 900 and 1800 seconds, for the OpenAI and the Gemini poll loops. -/
theorem c7_poll_interval_values :
    (oaiPollInterval 0 = 5 ∧ oaiPollInterval 60 = 5 ∧ oaiPollInterval 119 = 5 ∧
     oaiPollInterval 120 = 15 ∧ oaiPollInterval 300 = 15 ∧ oaiPollInterval 599 = 15 ∧
     oaiPollInterval 600 = 30 ∧ oaiPollInterval 900 = 30 ∧ oaiPollInterval 1800 = 30) ∧
    (gemPollInterval 0 = 5 ∧ gemPollInterval 60 = 5 ∧ gemPollInterval 119 = 5 ∧
     gemPollInterval 120 = 15 ∧ gemPollInterval 300 = 15 ∧ gemPollInterval 599 = 15 ∧
     gemPollInterval 600 = 30 ∧ gemPollInterval 900 = 30 ∧ gemPollInterval 1800 = 30) := by
  norm_num [oaiPollInterval, gemPollInterval]

/-- C6, counterexample: at attempt 4 with rate-limit base 5 and jitter draw
1/2, `_get_retry_delay` returns 67.5, which exceeds the 60-second ceiling —
the cap is applied before the jitter is added, so the returned delay can
exceed the maximum delay. -/
theorem c6_retry_delay_exceeds_cap :
    getRetryDelay 4 true none (1/2) = 135/2 ∧
    ¬ getRetryDelay 4 true none (1/2) ≤ RETRY_MAX_DELAY := by
  norm_num [getRetryDelay, RETRY_429_BASE_DELAY, RETRY_MAX_DELAY, min_def]

/-- C6, amended: without `Retry-After`, the returned delay equals the
exponential value capped at 60 seconds, times `1 + jitter/4` with the jitter
draw in `[0,1)`; the capped pre-jitter value never exceeds 60, and the result
stays below 75 (= 60 x 1.25), but the cap applies before the jitter rather
than to the returned value. With `Retry-After`, the returned delay is that
value capped at 60. -/
theorem c6_retry_delay_amended :
    ∀ (a : ℕ) (isRL : Bool) (r ra : ℚ), 0 ≤ r → r < 1 →
    getRetryDelay a isRL none r
        = min (baseDelay isRL * 2 ^ a) RETRY_MAX_DELAY * (1 + (1/4) * r) ∧
    min (baseDelay isRL * 2 ^ a) RETRY_MAX_DELAY ≤ RETRY_MAX_DELAY ∧
    getRetryDelay a isRL none r < RETRY_MAX_DELAY * (5/4) ∧
    getRetryDelay a isRL (some ra) r = min ra RETRY_MAX_DELAY ∧
    min ra RETRY_MAX_DELAY ≤ RETRY_MAX_DELAY := by
  intro a isRL r ra hr0 hr1
  have hbase : 0 < baseDelay isRL := by
    unfold baseDelay RETRY_429_BASE_DELAY RETRY_BASE_DELAY
    split <;> norm_num
  have hd0 : 0 < min (baseDelay isRL * 2 ^ a) RETRY_MAX_DELAY := by
    apply lt_min
    · exact mul_pos hbase (pow_pos (by norm_num) a)
    · norm_num [RETRY_MAX_DELAY]
  have hdle : min (baseDelay isRL * 2 ^ a) RETRY_MAX_DELAY ≤ RETRY_MAX_DELAY :=
    min_le_right _ _
  have heq : getRetryDelay a isRL none r
      = min (baseDelay isRL * 2 ^ a) RETRY_MAX_DELAY
        + min (baseDelay isRL * 2 ^ a) RETRY_MAX_DELAY * (1/4) * r := rfl
  refine ⟨by rw [heq]; ring, hdle, ?_, rfl, min_le_right _ _⟩
  rw [heq]
  have h60 : RETRY_MAX_DELAY = 60 := rfl
  rw [h60] at hdle ⊢
  nlinarith [hd0, hdle, hr0, hr1]

/-- C6, witness: the amended statement instantiated at attempt 0, rate-limit
base, zero jitter, and Retry-After 10. -/
theorem c6_retry_delay_witness :
    getRetryDelay 0 true none 0
        = min (baseDelay true * 2 ^ 0) RETRY_MAX_DELAY * (1 + (1/4) * 0) ∧
    min (baseDelay true * 2 ^ 0) RETRY_MAX_DELAY ≤ RETRY_MAX_DELAY ∧
    getRetryDelay 0 true none 0 < RETRY_MAX_DELAY * (5/4) ∧
    getRetryDelay 0 true (some 10) 0 = min 10 RETRY_MAX_DELAY ∧
    min (10 : ℚ) RETRY_MAX_DELAY ≤ RETRY_MAX_DELAY :=
  c6_retry_delay_amended 0 true 0 10 (by norm_num) (by norm_num)

/-- C4: for the response sequence 429, 429, 200 (no Retry-After on the 429s),
`request` returns the successful response on the third attempt, sleeps
exactly twice with each sleep at least the rate-limit base delay times
`2^attempt` for that attempt index, and makes no attempt after the success. -/
theorem c4_transport_429_429_200 {α : Type} :
    ∀ (d : α) (b1 b2 : Option String) (rand : ℕ → ℚ), (∀ i, 0 ≤ rand i) →
    (requestModel rand MAX_RETRIES (seq429_429_200 d b1 b2)).result = .ok d ∧
    (requestModel rand MAX_RETRIES (seq429_429_200 d b1 b2)).attempts = 3 ∧
    (requestModel rand MAX_RETRIES (seq429_429_200 d b1 b2)).sleeps
      = [getRetryDelay 0 true none (rand 0), getRetryDelay 1 true none (rand 1)] ∧
    RETRY_429_BASE_DELAY * 2 ^ 0 ≤ getRetryDelay 0 true none (rand 0) ∧
    RETRY_429_BASE_DELAY * 2 ^ 1 ≤ getRetryDelay 1 true none (rand 1) := by
  intro d b1 b2 rand hr
  have hrun : requestModel rand MAX_RETRIES (seq429_429_200 d b1 b2)
      = ⟨.ok d, [getRetryDelay 0 true none (rand 0), getRetryDelay 1 true none (rand 1)], 3⟩ := rfl
  refine ⟨by rw [hrun], by rw [hrun], by rw [hrun], ?_, ?_⟩
  · have h0 := hr 0
    norm_num [getRetryDelay, RETRY_429_BASE_DELAY, RETRY_MAX_DELAY, min_def]
    nlinarith [h0]
  · have h1 := hr 1
    norm_num [getRetryDelay, RETRY_429_BASE_DELAY, RETRY_MAX_DELAY, min_def]
    nlinarith [h1]

/-- C4, witness: the 429, 429, 200 run at a concrete document and zero
jitter; the two sleeps evaluate to 5 and 10 seconds. -/
theorem c4_transport_witness :
    ((requestModel (fun _ => 0) MAX_RETRIES (seq429_429_200 (7 : ℕ) none none)).result = .ok 7 ∧
     (requestModel (fun _ => 0) MAX_RETRIES (seq429_429_200 (7 : ℕ) none none)).attempts = 3 ∧
     (requestModel (fun _ => 0) MAX_RETRIES (seq429_429_200 (7 : ℕ) none none)).sleeps
       = [getRetryDelay 0 true none 0, getRetryDelay 1 true none 0] ∧
     RETRY_429_BASE_DELAY * 2 ^ 0 ≤ getRetryDelay 0 true none 0 ∧
     RETRY_429_BASE_DELAY * 2 ^ 1 ≤ getRetryDelay 1 true none 0) ∧
    getRetryDelay 0 true none 0 = 5 ∧ getRetryDelay 1 true none 0 = 10 :=
  ⟨c4_transport_429_429_200 7 none none (fun _ => 0) (fun _ => le_refl 0),
   by norm_num [getRetryDelay, RETRY_429_BASE_DELAY, RETRY_MAX_DELAY, min_def]⟩

/-- C5: a 4xx response other than 429 makes `request` fail on the spot with
an API error carrying the status code and the response body, with zero
sleeps and a single attempt; the initial connect of `stream_sse` fails the
same way. -/
theorem c5_fail_fast_4xx :
    (∀ {α : Type} (s : ℤ) (b : Option String) (ra : Option ℚ) (rand : ℕ → ℚ)
        (outs : ℕ → Outcome α), 400 ≤ s → s < 500 → s ≠ 429 →
      outs 0 = .httpFail s b ra →
      requestModel rand MAX_RETRIES outs
        = ⟨.error ⟨"HTTP " ++ toString s, some s, b, ra⟩, [], 1⟩) ∧
    (∀ (s : ℤ) (b : Option String) (ra : Option ℚ) (rand : ℕ → ℚ)
        (outs : ℕ → ConnOutcome), 400 ≤ s → s < 500 → s ≠ 429 →
      outs 0 = .httpFail s b ra →
      sseConnectModel rand outs
        = ⟨.error ⟨"HTTP " ++ toString s, some s, b, ra⟩, [], 1⟩) := by
  constructor
  · intro α s b ra rand outs h1 h2 h3 h0
    show requestGo rand 0 ((List.range MAX_RETRIES).map outs) none = _
    have hmap : (List.range MAX_RETRIES).map outs = [outs 0, outs 1, outs 2] := rfl
    rw [hmap, h0]
    simp only [requestGo]
    rw [if_pos ⟨h1, h2, h3⟩]
  · intro s b ra rand outs h1 h2 h3 h0
    show sseConnectGo rand 0 ((List.range MAX_RETRIES).map outs) none = _
    have hmap : (List.range MAX_RETRIES).map outs = [outs 0, outs 1, outs 2] := rfl
    rw [hmap, h0]
    simp only [sseConnectGo]
    rw [if_pos ⟨h1, h2, h3⟩]

/-- C5, witness: a 404 with body makes both the transport and the SSE
connect fail immediately with one attempt and no sleeps. -/
theorem c5_fail_fast_witness :
    requestModel (fun _ => 0) MAX_RETRIES
        (fun _ => Outcome.httpFail (α := ℕ) 404 (some "nf") none)
      = ⟨.error ⟨"HTTP " ++ toString (404 : ℤ), some 404, some "nf", none⟩, [], 1⟩ ∧
    sseConnectModel (fun _ => 0) (fun _ => ConnOutcome.httpFail 404 (some "nf") none)
      = ⟨.error ⟨"HTTP " ++ toString (404 : ℤ), some 404, some "nf", none⟩, [], 1⟩ :=
  ⟨c5_fail_fast_4xx.1 404 (some "nf") none (fun _ => 0) _
      (by norm_num) (by norm_num) (by norm_num) rfl,
   c5_fail_fast_4xx.2 404 (some "nf") none (fun _ => 0) _
      (by norm_num) (by norm_num) (by norm_num) rfl⟩

/-- Helper for C8: over input consisting only of comment lines and blank
lines, the parser state stays empty and no event is emitted. -/
theorem parseGo_comments_blanks :
    ∀ (lines : List String),
      (∀ l ∈ lines, (stripNl l).toList = [] ∨ startsWithChar ':' (stripNl l).toList = true) →
      parseGo lines emptySSEvent [] = [] := by
  intro lines
  induction lines with
  | nil => intro _; decide
  | cons l rest ih =>
    intro h
    have hl := h l (List.mem_cons_self l rest)
    have hrest : ∀ l' ∈ rest,
        (stripNl l').toList = [] ∨ startsWithChar ':' (stripNl l').toList = true :=
      fun l' hm => h l' (List.mem_cons_of_mem _ hm)
    rcases hl with hb | hc
    · have hnc : startsWithChar ':' (stripNl l).toList = false := by
        rw [hb]; rfl
      simp only [parseGo, hb, hnc]
      norm_num [emptySSEvent, hasContent]
      exact ih hrest
    · simp only [parseGo, hc]
      simp only [if_true]
      exact ih hrest

/-- C8: feeding the line parser `"event: x\ndata: a\ndata: b\n\n"` yields
exactly one event whose data is `"a\nb"` (consecutive data lines joined with
newlines, in order), and input made of comment lines (leading `:`) and blank
lines yields zero events. -/
theorem c8_sse_line_events :
    parseSSELines ["event: x\n", "data: a\n", "data: b\n", "\n"]
      = [⟨"x", "a\nb", ""⟩] ∧
    ∀ (lines : List String),
      (∀ l ∈ lines, (stripNl l).toList = [] ∨ startsWithChar ':' (stripNl l).toList = true) →
      parseSSELines lines = [] := by
  refine ⟨by decide, ?_⟩
  intro lines h
  exact parseGo_comments_blanks lines h

/-- C8, witness: a comment line followed by a blank line parses to zero
events. -/
theorem c8_sse_line_events_witness : parseSSELines [": ping\n", "\n"] = [] :=
  c8_sse_line_events.2 [": ping\n", "\n"] (by decide)

/-- Helper: the Gemini poll loop raises `ProviderTimeoutError` as soon as the
elapsed time at a loop entry reaches the ceiling. -/
theorem pollG_ceiling (poll : ℕ → GDoc) (delta : ℕ → ℚ) (fuel k : ℕ) (elapsed : ℚ)
    (h : MAX_TIMEOUT_SECONDS ≤ elapsed) :
    pollG poll delta (fuel + 1) k elapsed
      = some (.error (.provTimeout "gemini" MAX_TIMEOUT_SECONDS elapsed), k) := by
  simp only [pollG]
  rw [if_pos h]

/-- Helper: the OpenAI poll loop raises `ProviderTimeoutError` as soon as the
elapsed time at a loop entry reaches the ceiling. -/
theorem pollO_ceiling (poll : ℕ → OAIDoc) (delta : ℕ → ℚ) (fuel k : ℕ) (elapsed : ℚ)
    (h : MAX_POLL_SECONDS ≤ elapsed) :
    pollO poll delta (fuel + 1) k elapsed
      = some (.error (.provTimeout "openai" MAX_POLL_SECONDS elapsed), k) := by
  simp only [pollO]
  rw [if_pos h]

/-- Helper: with nonnegative per-iteration overhead, the Gemini poll loop
reaches some outcome within `fuel + 1` iterations whenever
`elapsed + 5 * fuel` covers the ceiling (the interval is at least 5s). -/
theorem pollG_terminates (poll : ℕ → GDoc) (delta : ℕ → ℚ) (hd : ∀ j, 0 ≤ delta j) :
    ∀ (fuel k : ℕ) (elapsed : ℚ), MAX_TIMEOUT_SECONDS ≤ elapsed + 5 * fuel →
    (pollG poll delta (fuel + 1) k elapsed).isSome = true := by
  intro fuel
  induction fuel with
  | zero =>
    intro k elapsed h
    have h' : MAX_TIMEOUT_SECONDS ≤ elapsed := by push_cast at h; linarith
    rw [pollG_ceiling poll delta 0 k elapsed h']
    rfl
  | succ n ih =>
    intro k elapsed h
    simp only [pollG]
    split
    · rfl
    next h1 =>
      split
      · rfl
      · split
        · rfl
        · split
          · rfl
          · apply ih
            have h5 := gemPollInterval_ge_five elapsed
            have hdk := hd k
            push_cast at h ⊢
            linarith

/-- Helper: same termination bound for the OpenAI poll loop. -/
theorem pollO_terminates (poll : ℕ → OAIDoc) (delta : ℕ → ℚ) (hd : ∀ j, 0 ≤ delta j) :
    ∀ (fuel k : ℕ) (elapsed : ℚ), MAX_POLL_SECONDS ≤ elapsed + 5 * fuel →
    (pollO poll delta (fuel + 1) k elapsed).isSome = true := by
  intro fuel
  induction fuel with
  | zero =>
    intro k elapsed h
    have h' : MAX_POLL_SECONDS ≤ elapsed := by push_cast at h; linarith
    rw [pollO_ceiling poll delta 0 k elapsed h']
    rfl
  | succ n ih =>
    intro k elapsed h
    rw [pollO.eq_2]
    split
    · rfl
    next h1 =>
      dsimp only
      split
      · rfl
      · split
        · rfl
        · split
          · rfl
          · split
            · rfl
            · apply ih
              have h5 := oaiPollInterval_ge_five elapsed
              have hdk := hd k
              push_cast at h ⊢
              linarith

/-- C2, counterexample: in the streaming loop, an event arriving exactly at
the 1800s ceiling makes the loop raise `ProviderTimeoutError`, but the
function's catch-all wraps it into `http.HTTPError` with no status code, so
the surfaced error is not of the Timeout class as the claim states. -/
theorem c2_stream_ceiling_not_timeout_class :
    streamResponse c2World
      = (.error (wrapNonHttp (.provTimeout "gemini" MAX_TIMEOUT_SECONDS 1800)), 1800, 1) ∧
    resultErrIsTimeout (streamResponse c2World).1 = false := ⟨rfl, rfl⟩

/-- C2 (amended): reaching the 1800s ceiling at a poll-loop entry raises
`ProviderTimeoutError` in both providers' poll loops, and with nonnegative
per-iteration overheads each poll loop terminates within 361 iterations; in
the Gemini streaming loop, an event arriving at elapsed at least 1800s ends
the stream at once, but the `ProviderTimeoutError` raised there is wrapped
into an `http.HTTPError` with no status code (which is not Timeout-class and
triggers the poll fallback) rather than surfacing as the Timeout class. -/
theorem c2_overall_ceiling_amended :
    (∀ (poll : ℕ → GDoc) (delta : ℕ → ℚ) (fuel k : ℕ) (elapsed : ℚ),
        MAX_TIMEOUT_SECONDS ≤ elapsed →
        pollG poll delta (fuel + 1) k elapsed
          = some (.error (.provTimeout "gemini" MAX_TIMEOUT_SECONDS elapsed), k)) ∧
    (∀ (poll : ℕ → OAIDoc) (delta : ℕ → ℚ) (fuel k : ℕ) (elapsed : ℚ),
        MAX_POLL_SECONDS ≤ elapsed →
        pollO poll delta (fuel + 1) k elapsed
          = some (.error (.provTimeout "openai" MAX_POLL_SECONDS elapsed), k)) ∧
    (∀ (poll : ℕ → GDoc) (delta : ℕ → ℚ), (∀ j, 0 ≤ delta j) →
        (pollG poll delta 361 0 0).isSome = true) ∧
    (∀ (poll : ℕ → OAIDoc) (delta : ℕ → ℚ), (∀ j, 0 ≤ delta j) →
        (pollO poll delta 361 0 0).isSome = true) ∧
    (∀ (e : TimedGEvent) (rest : List TimedGEvent) (ending : GEnding)
        (parts : List String) (n : ℕ), MAX_TIMEOUT_SECONDS ≤ e.t →
        streamLoopGo (e :: rest) ending parts n
          = (.error (wrapNonHttp (.provTimeout "gemini" MAX_TIMEOUT_SECONDS e.t)), e.t, n + 1) ∧
        isTimeoutClass (wrapNonHttp (.provTimeout "gemini" MAX_TIMEOUT_SECONDS e.t)) = false) := by
  refine ⟨pollG_ceiling, pollO_ceiling, ?_, ?_, ?_⟩
  · intro poll delta hd
    have := pollG_terminates poll delta hd 360 0 0 (by norm_num [MAX_TIMEOUT_SECONDS])
    exact this
  · intro poll delta hd
    have := pollO_terminates poll delta hd 360 0 0 (by norm_num [MAX_POLL_SECONDS])
    exact this
  · intro e rest ending parts n h
    constructor
    · simp only [streamLoopGo]
      rw [if_pos h]
    · rfl

/-- C2, witness: the amended statement applied at never-terminal poll
documents, zero overheads, and a ceiling-crossing streaming event. -/
theorem c2_overall_ceiling_witness :
    pollG (fun _ => gdEmpty) (fun _ => 0) 4 0 1800
      = some (.error (.provTimeout "gemini" MAX_TIMEOUT_SECONDS 1800), 0) ∧
    pollO (fun _ => oaEmpty) (fun _ => 0) 4 0 1800
      = some (.error (.provTimeout "openai" MAX_POLL_SECONDS 1800), 0) ∧
    (pollG (fun _ => gdEmpty) (fun _ => 0) 361 0 0).isSome = true ∧
    (pollO (fun _ => oaEmpty) (fun _ => 0) 361 0 0).isSome = true ∧
    (streamLoopGo [⟨1800, "interaction.start", .obj "" "" none, 0⟩] (.clean 1801) [] 0
        = (.error (wrapNonHttp (.provTimeout "gemini" MAX_TIMEOUT_SECONDS 1800)), 1800, 0 + 1) ∧
     isTimeoutClass (wrapNonHttp (.provTimeout "gemini" MAX_TIMEOUT_SECONDS 1800)) = false) :=
  ⟨c2_overall_ceiling_amended.1 _ _ 3 0 1800 (by norm_num [MAX_TIMEOUT_SECONDS]),
   c2_overall_ceiling_amended.2.1 _ _ 3 0 1800 (by norm_num [MAX_POLL_SECONDS]),
   c2_overall_ceiling_amended.2.2.1 _ _ (fun _ => le_refl 0),
   c2_overall_ceiling_amended.2.2.2.1 _ _ (fun _ => le_refl 0),
   c2_overall_ceiling_amended.2.2.2.2 ⟨1800, "interaction.start", .obj "" "" none, 0⟩
     [] (.clean 1801) [] 0 (by norm_num [MAX_TIMEOUT_SECONDS])⟩

/-- C1 (code bug): a Gemini stream that yields two events and then goes
silent is read with a socket timeout equal to the full 1800-second ceiling
(`timeout=MAX_TIMEOUT_SECONDS` at the `stream_sse` call site), not a
read-timeout strictly shorter than the overall budget: both events are
consumed, but the stall error surfaces only at the last event time plus the
full ceiling, and it is an `HTTPError`, not a Timeout-class error. -/
theorem c1_stream_stall_only_at_full_ceiling :
    streamResponse c1World
      = (.error (.http ⟨"SSE stream error: TimeoutError: timed out", none, none, none⟩),
         20 + sseCallReadTimeout, 2) ∧
    sseCallReadTimeout = MAX_TIMEOUT_SECONDS ∧
    ¬ sseCallReadTimeout < MAX_TIMEOUT_SECONDS ∧
    resultErrIsTimeout (streamResponse c1World).1 = false := by
  refine ⟨rfl, rfl, ?_, rfl⟩
  norm_num [sseCallReadTimeout]

/-- C3: a streaming-phase failure with no HTTP status or a 5xx status makes
the Gemini orchestrator fall back to the polling loop and return the poll
path's result; a streaming-phase failure with a 4xx status is propagated to
the caller with no fallback. -/
theorem c3_stream_fallback_dispatch :
    (∀ (fuel : ℕ) (w : GWorld) (h : HErr),
        extractIdG w.submit ≠ "" →
        ¬(effStatusG w.submit = "completed" ∨ effStatusG w.submit = "COMPLETED") →
        (streamResponse w.stream).1 = .error (.http h) →
        fallbackCond h.status = true →
        researchG fuel w = pollPhaseG fuel w) ∧
    (∀ (fuel : ℕ) (w : GWorld) (h : HErr) (s : ℤ),
        extractIdG w.submit ≠ "" →
        ¬(effStatusG w.submit = "completed" ∨ effStatusG w.submit = "COMPLETED") →
        (streamResponse w.stream).1 = .error (.http h) →
        h.status = some s → 400 ≤ s → s < 500 →
        researchG fuel w = some (.error (.http h), ⟨0, 1⟩)) := by
  constructor
  · intro fuel w h hid hst hsr hfb
    rcases hq : streamResponse w.stream with ⟨res, t, n⟩
    rw [hq] at hsr
    dsimp only at hsr
    subst hsr
    simp only [researchG, hq, if_neg hid, if_neg hst, hfb, if_true]
  · intro fuel w h s hid hst hsr hstat h400 h500
    have hfb : fallbackCond h.status = false := by
      rw [hstat]
      simp only [fallbackCond, decide_eq_false_iff_not]
      omega
    rcases hq : streamResponse w.stream with ⟨res, t, n⟩
    rw [hq] at hsr
    dsimp only at hsr
    subst hsr
    simp only [researchG, hq, if_neg hid, if_neg hst, hfb]
    simp

/-- C3, witness: with an in-progress submission, a 503-rejected stream falls
back to polling and returns the polled report, while a 404-rejected stream
propagates the 404 error with zero polls. -/
theorem c3_stream_fallback_witness :
    researchG 1 c3World5xx = pollPhaseG 1 c3World5xx ∧
    pollPhaseG 1 c3World5xx
      = some (.ok ("Report text", [⟨"https://example.com", none⟩], AGENT), ⟨1, 1⟩) ∧
    researchG 1 c3World4xx
      = some (.error (.http ⟨"HTTP 404", some 404, some "nf", none⟩), ⟨0, 1⟩) :=
  ⟨c3_stream_fallback_dispatch.1 1 c3World5xx ⟨"HTTP 503", some 503, some "oops", none⟩
      (by decide) (by decide) rfl rfl,
   rfl,
   c3_stream_fallback_dispatch.2 1 c3World4xx ⟨"HTTP 404", some 404, some "nf", none⟩ 404
      (by decide) (by decide) rfl rfl (by norm_num) (by norm_num)⟩

/-- C9: a submission response that itself reports a terminal completed
status makes the orchestrator perform zero poll requests and zero stream
opens and return the report extracted from that submission response, for
both the Gemini and the OpenAI clients. -/
theorem c9_already_completed_shortcut :
    (∀ (fuel : ℕ) (w : GWorld),
        extractIdG w.submit ≠ "" →
        (effStatusG w.submit = "completed" ∨ effStatusG w.submit = "COMPLETED") →
        researchG fuel w
          = some (.ok ((extractReportG w.submit).1, (extractReportG w.submit).2, AGENT),
              ⟨0, 0⟩)) ∧
    (∀ (fuel : ℕ) (model : String) (w : OWorld),
        idOkO w.submit = true →
        w.submit.status.getD "" = "completed" →
        researchO fuel model w
          = some (.ok ((extractReportO w.submit).1, (extractReportO w.submit).2, model), 0)) := by
  constructor
  · intro fuel w hid hst
    simp only [researchG, if_neg hid, if_pos hst]
  · intro fuel model w hid hst
    simp [researchO, hid, hst]

/-- C9, witness: concrete already-completed submission responses for both
providers, with the extracted reports evaluated. -/
theorem c9_already_completed_witness :
    researchG 0 c9WorldG
      = some (.ok ((extractReportG gdDone).1, (extractReportG gdDone).2, AGENT), ⟨0, 0⟩) ∧
    extractReportG gdDone = ("Final report", [⟨"https://a.example", some "A"⟩]) ∧
    researchO 0 PRIMARY_MODEL c9WorldO
      = some (.ok ((extractReportO oaDone).1, (extractReportO oaDone).2, PRIMARY_MODEL), 0) ∧
    extractReportO oaDone = ("OA report", [⟨"https://b.example", some "B"⟩]) :=
  ⟨c9_already_completed_shortcut.1 0 c9WorldG (by decide) (Or.inl rfl),
   rfl,
   c9_already_completed_shortcut.2 0 PRIMARY_MODEL c9WorldO rfl rfl,
   rfl⟩

/-- C10: when the Gemini streaming phase ends successfully but with an empty
accumulated report, the orchestrator does not return the empty streamed
report: it runs the polling fallback and returns the poll path's result. -/
theorem c10_empty_stream_report_polls :
    ∀ (fuel : ℕ) (w : GWorld),
      extractIdG w.submit ≠ "" →
      ¬(effStatusG w.submit = "completed" ∨ effStatusG w.submit = "COMPLETED") →
      (streamResponse w.stream).1 = .ok "" →
      researchG fuel w = pollPhaseG fuel w := by
  intro fuel w hid hst hsr
  rcases hq : streamResponse w.stream with ⟨res, t, n⟩
  rw [hq] at hsr
  dsimp only at hsr
  subst hsr
  simp only [researchG, hq, if_neg hid, if_neg hst]
  simp

/-- C10, witness: a stream that completes with no accumulated text makes the
call return the polled report, not the empty streamed one. -/
theorem c10_empty_stream_report_witness :
    researchG 1 c10World = pollPhaseG 1 c10World ∧
    (streamResponse c10Stream).1 = .ok "" ∧
    pollPhaseG 1 c10World
      = some (.ok ("Report text", [⟨"https://example.com", none⟩], AGENT), ⟨1, 1⟩) :=
  ⟨c10_empty_stream_report_polls 1 c10World (by decide) (by decide) rfl, rfl, rfl⟩

end DeepResearch
